import Mathlib

/-!
# Verification of the FastAPI todo service (`src/main.py`)

A shallow embedding of the todo CRUD service: one Mongo collection of
item documents, a process-wide Prometheus metrics registry, and the
request handlers `create_todo`, `update_todo`, `delete_todo`,
`get_todos`, `metrics`, plus the helper `update_active_todos_count`,
the serializer `serialize_todo` and the (unused) timing decorator
`track_request_time`.

Python exception flow is made explicit: each storage call may raise a
`PyMongoError` (modelled by per-operation failure flags), `ObjectId`
raises `InvalidId` on a malformed id string, and `HTTPException` raised
inside a handler's `try` block is subject to that handler's own
`except` clauses.  Side effects performed before a raise persist, so
the state is threaded explicitly through every step.

Ghost instrumentation of the storage gateway (not metrics, not visible
to clients): `countQueries` counts `count_documents` calls and
`queriedIds` logs every id passed to `find_one` / `update_one` /
`delete_one`, so that "issues a fresh count query" and "never reaches
the storage layer" become statable.
-/

namespace TodoApp

/-- A document of the `todos` collection.  The application only ever
inserts the keys `title`, `description`, `completed`; `createdAt` is
kept as an `Option` because `serialize_todo` reads it with a default
(`todo.get("createdAt", "")`) while `create_todo` never writes it. -/
structure Doc where
  _id : String
  title : String
  description : Option String
  completed : Bool
  createdAt : Option String
deriving Repr, DecidableEq

/-- Request body of `POST /todos` (pydantic model `TodoCreate`):
`title` required, `description` optional, `completed` defaults to
`False` and is present in `todo.dict()`. -/
structure TodoCreate where
  title : String
  description : Option String
  completed : Bool
deriving Repr, DecidableEq

/-- Request body of `PUT /todos/{id}` (pydantic model `TodoUpdate`):
all three fields optional; `none` stands for an absent or `null`
JSON field (both become Python `None`). -/
structure TodoUpdate where
  title : Option String
  description : Option String
  completed : Option Bool
deriving Repr, DecidableEq

/-- Response document produced by `serialize_todo`. -/
structure SerializedTodo where
  id : String
  title : String
  description : Option String
  completed : Bool
  createdAt : String
deriving Repr, DecidableEq

/-- Hex digit test for ObjectId validation. -/
def isHexChar (c : Char) : Bool :=
  (decide ('0' ≤ c) && decide (c ≤ '9')) ||
  (decide ('a' ≤ c) && decide (c ≤ 'f')) ||
  (decide ('A' ≤ c) && decide (c ≤ 'F'))

/-- ASCII lowercase of one character (structural, so that the kernel
can evaluate it). -/
def lowerAsciiChar (c : Char) : Char :=
  if decide ('A' ≤ c) && decide (c ≤ 'Z') then Char.ofNat (c.toNat + 32) else c

/-- ASCII lowercase of a string. -/
def toLowerAscii (s : String) : String :=
  ⟨s.data.map lowerAsciiChar⟩

/-- `bson.objectid.ObjectId(s)`: accepts exactly the 24-character hex
strings (case-insensitive) and normalises to the canonical lowercase
form (`ObjectId.__eq__` compares the underlying bytes, and `str`
renders lowercase hex); any other string raises `InvalidId`,
modelled as `none`. -/
def parseObjectId (s : String) : Option String :=
  if s.length == 24 && s.toList.all isHexChar then some (toLowerAscii s) else none

/-- `find_one({"_id": oid})`: first document with the given id. -/
def findOne : List Doc → String → Option Doc
  | [], _ => none
  | d :: rest, oid => if d._id == oid then some d else findOne rest oid

/-- The `$set` document built by `update_todo`
(`{k: v for k, v in todo_update.dict().items() if v is not None}`)
applied to one document: only the non-`None` fields are written. -/
def applySet (u : TodoUpdate) (d : Doc) : Doc :=
  { d with
    title := match u.title with | some t => t | none => d.title
    description := match u.description with | some x => some x | none => d.description
    completed := match u.completed with | some b => b | none => d.completed }

/-- `update_one({"_id": oid}, {"$set": u})`: updates the first matching
document in place. -/
def updateOne : List Doc → String → TodoUpdate → List Doc
  | [], _, _ => []
  | d :: rest, oid, u =>
      if d._id == oid then applySet u d :: rest else d :: updateOne rest oid u

/-- `delete_one({"_id": oid})`: removes the first matching document and
reports `deleted_count` (0 or 1). -/
def deleteOne : List Doc → String → List Doc × Nat
  | [], _ => ([], 0)
  | d :: rest, oid =>
      if d._id == oid then (rest, 1)
      else
        let p := deleteOne rest oid
        (d :: p.1, p.2)

/-- `count_documents({"completed": False})`: number of documents whose
`completed` field is `false`. -/
def countIncomplete (coll : List Doc) : Nat :=
  (coll.filter (fun d => d.completed == false)).length

/-- Whether some document already carries this id (Mongo's unique
`_id` index: `insert_one` with a duplicate id raises a
`DuplicateKeyError`, a `PyMongoError`). -/
def hasId (coll : List Doc) (oid : String) : Bool :=
  coll.any (fun d => d._id == oid)

/-- `serialize_todo`: converts a Mongo document to the response format;
`createdAt` falls back to `""` when the key is missing. -/
def serialize_todo (d : Doc) : SerializedTodo :=
  { id := d._id
    title := d.title
    description := d.description
    completed := d.completed
    createdAt := match d.createdAt with | some s => s | none => "" }

/-- One line of the Prometheus text exposition produced by
`generate_latest`: `# HELP` / `# TYPE` metadata or a sample. -/
inductive ExpoLine where
  | helpLine (name : String)
  | typeLine (name : String)
  | sampleLine (name : String) (labels : List (String × String)) (value : Nat)
deriving Repr, DecidableEq

/-- The metric family name a line belongs to. -/
def ExpoLine.familyName : ExpoLine → String
  | .helpLine n => n
  | .typeLine n => n
  | .sampleLine n _ _ => n

/-- Whether a line is a sample (an actual series value, as opposed to
`# HELP` / `# TYPE` metadata). -/
def ExpoLine.isSample : ExpoLine → Bool
  | .sampleLine _ _ _ => true
  | _ => false

/-- The process-wide metrics registry of `main.py`.  Histogram
observations are recorded as their label triples
(method, endpoint, status_code); the labelled `db_errors_total`
counter is one field per operation label used by the code. -/
structure Metrics where
  httpObservations : List (String × String × Nat)
  todosCreated : Nat
  todosDeleted : Nat
  todosCompleted : Nat
  activeTodos : Nat
  dbErrorsFind : Nat
  dbErrorsCreate : Nat
  dbErrorsUpdate : Nat
  dbErrorsDelete : Nat
  dbErrorsCount : Nat
  mongoConnections : Nat
deriving Repr, DecidableEq

/-- `generate_latest(REGISTRY)` restricted to structure: every
registered family contributes its `# HELP` / `# TYPE` lines; sample
lines exist per labelled child that has been touched (a labelled
histogram or counter with no children exposes metadata only). -/
def generateLatest (m : Metrics) : List ExpoLine :=
  [ExpoLine.helpLine "http_request_duration_seconds",
   ExpoLine.typeLine "http_request_duration_seconds"] ++
  (m.httpObservations.map (fun obs =>
    ExpoLine.sampleLine "http_request_duration_seconds"
      [("method", obs.1), ("endpoint", obs.2.1),
       ("status_code", toString obs.2.2)] 1)) ++
  [ExpoLine.helpLine "todos_created_total",
   ExpoLine.typeLine "todos_created_total",
   ExpoLine.sampleLine "todos_created_total" [] m.todosCreated,
   ExpoLine.helpLine "todos_deleted_total",
   ExpoLine.typeLine "todos_deleted_total",
   ExpoLine.sampleLine "todos_deleted_total" [] m.todosDeleted,
   ExpoLine.helpLine "todos_completed_total",
   ExpoLine.typeLine "todos_completed_total",
   ExpoLine.sampleLine "todos_completed_total" [] m.todosCompleted,
   ExpoLine.helpLine "active_todos_count",
   ExpoLine.typeLine "active_todos_count",
   ExpoLine.sampleLine "active_todos_count" [] m.activeTodos,
   ExpoLine.helpLine "db_errors_total",
   ExpoLine.typeLine "db_errors_total"] ++
  (if m.dbErrorsFind == 0 then [] else
    [ExpoLine.sampleLine "db_errors_total" [("operation", "find")] m.dbErrorsFind]) ++
  (if m.dbErrorsCreate == 0 then [] else
    [ExpoLine.sampleLine "db_errors_total" [("operation", "create")] m.dbErrorsCreate]) ++
  (if m.dbErrorsUpdate == 0 then [] else
    [ExpoLine.sampleLine "db_errors_total" [("operation", "update")] m.dbErrorsUpdate]) ++
  (if m.dbErrorsDelete == 0 then [] else
    [ExpoLine.sampleLine "db_errors_total" [("operation", "delete")] m.dbErrorsDelete]) ++
  (if m.dbErrorsCount == 0 then [] else
    [ExpoLine.sampleLine "db_errors_total" [("operation", "count")] m.dbErrorsCount]) ++
  [ExpoLine.helpLine "mongo_connections_active",
   ExpoLine.typeLine "mongo_connections_active",
   ExpoLine.sampleLine "mongo_connections_active" [] m.mongoConnections]

/-- Full application state: the collection, the metrics registry, and
ghost instrumentation of the storage gateway (`countQueries`: number
of `count_documents` calls issued; `queriedIds`: every id handed to a
`find_one` / `update_one` / `delete_one` query, in order). -/
structure AppState where
  coll : List Doc
  metrics : Metrics
  countQueries : Nat
  queriedIds : List String
deriving Repr, DecidableEq

/-- Per-operation storage failure injection: a `true` flag makes every
call of that operation raise `PyMongoError`. -/
structure DbFailures where
  findFails : Bool
  insertFails : Bool
  updateFails : Bool
  deleteFails : Bool
  countFails : Bool
deriving Repr, DecidableEq

def noFailures : DbFailures := ⟨false, false, false, false, false⟩

def onlyUpdateFails : DbFailures := ⟨false, false, true, false, false⟩

def onlyCountFails : DbFailures := ⟨false, false, false, false, true⟩

/-- Responses a handler can produce.  `errorJson` corresponds to a
raised `HTTPException` (FastAPI turns it into a JSON error body). -/
inductive HandlerResponse where
  | todoJson (statusCode : Nat) (todo : SerializedTodo)
  | todoListJson (statusCode : Nat) (todos : List SerializedTodo)
  | messageJson (statusCode : Nat) (message : String)
  | errorJson (statusCode : Nat) (detail : String)
  | metricsText (statusCode : Nat) (lines : List ExpoLine)
deriving Repr, DecidableEq

def HandlerResponse.statusCode : HandlerResponse → Nat
  | .todoJson c _ => c
  | .todoListJson c _ => c
  | .messageJson c _ => c
  | .errorJson c _ => c
  | .metricsText c _ => c

/-- `update_active_todos_count`: issues one `count_documents` query;
on success sets the `active_todos` gauge, on `PyMongoError` increments
`db_errors{operation="count"}` and leaves the gauge untouched (the
exception is swallowed inside this helper). -/
def update_active_todos_count (fs : DbFailures) (s : AppState) : AppState :=
  let s1 := { s with countQueries := s.countQueries + 1 }
  if fs.countFails then
    { s1 with metrics := { s1.metrics with dbErrorsCount := s1.metrics.dbErrorsCount + 1 } }
  else
    { s1 with metrics := { s1.metrics with activeTodos := countIncomplete s1.coll } }

/-- `POST /todos` (`create_todo`): forces `completed = False`, inserts,
increments `todos_created`, refreshes the gauge, re-reads the inserted
document and returns it serialized with 201; any `PyMongoError` in the
`try` block maps to `db_errors{operation="create"}` and a 500.  The
driver-generated id is the `newId` parameter; inserting a duplicate id
would raise `DuplicateKeyError` (a `PyMongoError`). -/
def create_todo (fs : DbFailures) (newId : String) (s : AppState) (todo : TodoCreate) :
    AppState × HandlerResponse :=
  if fs.insertFails || hasId s.coll newId then
    ({ s with metrics := { s.metrics with dbErrorsCreate := s.metrics.dbErrorsCreate + 1 } },
     .errorJson 500 "Failed to create todo")
  else
    let newDoc : Doc :=
      { _id := newId, title := todo.title, description := todo.description,
        completed := false, createdAt := none }
    let s1 : AppState :=
      { s with coll := s.coll ++ [newDoc],
               metrics := { s.metrics with todosCreated := s.metrics.todosCreated + 1 } }
    let s2 := update_active_todos_count fs s1
    let s3 : AppState := { s2 with queriedIds := s2.queriedIds ++ [newId] }
    if fs.findFails then
      ({ s3 with metrics := { s3.metrics with dbErrorsCreate := s3.metrics.dbErrorsCreate + 1 } },
       .errorJson 500 "Failed to create todo")
    else
      match findOne s3.coll newId with
      | some created => (s3, .todoJson 201 (serialize_todo created))
      | none => (s3, .errorJson 500 "Internal Server Error")

/-- `PUT /todos/{todo_id}` (`update_todo`).  Control flow of the
`try` block: `ObjectId` parse, `find_one`, 404 on absence, no-op early
return when the update dict is empty, completion-counter check,
`update_one`, `find_one`, gauge refresh, 200.  `except PyMongoError`
maps to `db_errors{operation="update"}` + 500; the trailing
`except Exception` maps everything else — including the
`HTTPException(404)` raised inside the `try` and the `InvalidId` from
`ObjectId` — to a 400 "Invalid todo ID". -/
def update_todo (fs : DbFailures) (s : AppState) (todo_id : String) (u : TodoUpdate) :
    AppState × HandlerResponse :=
  match parseObjectId todo_id with
  | none => (s, .errorJson 400 "Invalid todo ID")
  | some oid =>
    let s1 : AppState := { s with queriedIds := s.queriedIds ++ [oid] }
    if fs.findFails then
      ({ s1 with metrics := { s1.metrics with dbErrorsUpdate := s1.metrics.dbErrorsUpdate + 1 } },
       .errorJson 500 "Failed to update todo")
    else
      match findOne s1.coll oid with
      | none => (s1, .errorJson 400 "Invalid todo ID")
      | some existing =>
        if u.title == none && u.description == none && u.completed == none then
          (s1, .todoJson 200 (serialize_todo existing))
        else
          let s2 : AppState :=
            if u.completed == some true && existing.completed == false then
              { s1 with metrics :=
                  { s1.metrics with todosCompleted := s1.metrics.todosCompleted + 1 } }
            else s1
          let s3 : AppState := { s2 with queriedIds := s2.queriedIds ++ [oid] }
          if fs.updateFails then
            ({ s3 with metrics :=
                 { s3.metrics with dbErrorsUpdate := s3.metrics.dbErrorsUpdate + 1 } },
             .errorJson 500 "Failed to update todo")
          else
            let s4 : AppState := { s3 with coll := updateOne s3.coll oid u }
            let s5 : AppState := { s4 with queriedIds := s4.queriedIds ++ [oid] }
            match findOne s5.coll oid with
            | none => (update_active_todos_count fs s5, .errorJson 400 "Invalid todo ID")
            | some updated =>
                (update_active_todos_count fs s5, .todoJson 200 (serialize_todo updated))

/-- `DELETE /todos/{todo_id}` (`delete_todo`): `ObjectId` parse,
`delete_one`, 404 when `deleted_count == 0`, `todos_deleted` + gauge
refresh, 200 confirmation.  As in `update_todo`, the raised
`HTTPException(404)` and the `InvalidId` are both caught by the
trailing `except Exception` and become a 400. -/
def delete_todo (fs : DbFailures) (s : AppState) (todo_id : String) :
    AppState × HandlerResponse :=
  match parseObjectId todo_id with
  | none => (s, .errorJson 400 "Invalid todo ID")
  | some oid =>
    let s1 : AppState := { s with queriedIds := s.queriedIds ++ [oid] }
    if fs.deleteFails then
      ({ s1 with metrics := { s1.metrics with dbErrorsDelete := s1.metrics.dbErrorsDelete + 1 } },
       .errorJson 500 "Failed to delete todo")
    else
      let p := deleteOne s1.coll oid
      let s2 : AppState := { s1 with coll := p.1 }
      if p.2 == 0 then
        (s2, .errorJson 400 "Invalid todo ID")
      else
        let s3 : AppState :=
          { s2 with metrics := { s2.metrics with todosDeleted := s2.metrics.todosDeleted + 1 } }
        (update_active_todos_count fs s3, .messageJson 200 "Todo deleted")

/-- `GET /todos` (`get_todos`). -/
def get_todos (fs : DbFailures) (s : AppState) : AppState × HandlerResponse :=
  if fs.findFails then
    ({ s with metrics := { s.metrics with dbErrorsFind := s.metrics.dbErrorsFind + 1 } },
     .errorJson 500 "Failed to fetch todos")
  else
    (s, .todoListJson 200 (s.coll.map serialize_todo))

/-- `GET /metrics` (`metrics`): renders the registry. -/
def metricsHandler (s : AppState) : AppState × HandlerResponse :=
  (s, .metricsText 200 (generateLatest s.metrics))

/-- `track_request_time(method, endpoint, status_code)`: the timing
decorator of `main.py`.  It records one histogram observation per
wrapped call, labelled with status 200 on normal return and 500 on an
exception (the `status_code` argument is ignored by the wrapper, as in
the source).  No route in `main.py` is decorated with it. -/
def track_request_time (method endpoint : String) (statusCode : Nat)
    (handler : AppState → AppState × HandlerResponse) (s : AppState) :
    AppState × HandlerResponse :=
  let p := handler s
  let observed : Nat := match p.2 with
    | .errorJson _ _ => 500
    | _ => 200
  let _ := statusCode
  ({ p.1 with metrics :=
      { p.1.metrics with httpObservations :=
          p.1.metrics.httpObservations ++ [(method, endpoint, observed)] } },
   p.2)

/-- One incoming HTTP request, as dispatched by the FastAPI app.  The
driver-generated id of an insert is carried by the request. -/
inductive Request where
  | getHealth
  | getLive
  | getMetrics
  | getTodos
  | postTodos (newId : String) (body : TodoCreate)
  | putTodo (todo_id : String) (body : TodoUpdate)
  | delTodo (todo_id : String)
deriving Repr, DecidableEq

/-- Route dispatch: each route runs exactly the handler registered in
`main.py` — none of them is wrapped by `track_request_time`. -/
def stepRequest (fs : DbFailures) (s : AppState) : Request → AppState × HandlerResponse
  | .getHealth => (s, .messageJson 200 "ok")
  | .getLive => (s, .messageJson 200 "alive")
  | .getMetrics => metricsHandler s
  | .getTodos => get_todos fs s
  | .postTodos newId body => create_todo fs newId s body
  | .putTodo todo_id body => update_todo fs s todo_id body
  | .delTodo todo_id => delete_todo fs s todo_id

/-- Run a request sequence, keeping only the final state. -/
def runRequests (fs : DbFailures) (s : AppState) : List Request → AppState
  | [] => s
  | r :: rs => runRequests fs (stepRequest fs s r).1 rs

def zeroMetrics : Metrics :=
  { httpObservations := [], todosCreated := 0, todosDeleted := 0,
    todosCompleted := 0, activeTodos := 0, dbErrorsFind := 0,
    dbErrorsCreate := 0, dbErrorsUpdate := 0, dbErrorsDelete := 0,
    dbErrorsCount := 0, mongoConnections := 0 }

/-- State after the `lifespan` startup: connection verified
(`mongo_connections.set(1)`) and one initial
`update_active_todos_count()` on the empty collection. -/
def initialState : AppState :=
  update_active_todos_count noFailures
    { coll := [], metrics := { zeroMetrics with mongoConnections := 1 },
      countQueries := 0, queriedIds := [] }

/-- A request that is a mutation (create, update or delete). -/
def isMutation : Request → Bool
  | .postTodos _ _ => true
  | .putTodo _ _ => true
  | .delTodo _ => true
  | _ => false

/-- Success statuses of the mutation routes (201 create, 200 others). -/
def isSuccessStatus (c : Nat) : Bool :=
  c == 200 || c == 201

/-- A `PUT` whose body supplies no fields at all (every field absent
or `null`), i.e. the no-op update. -/
def isNoopPut : Request → Bool
  | .putTodo _ u => u.title == none && u.description == none && u.completed == none
  | _ => false

/-- The completion-counter trigger of `update_todo` read off the prior
state: the id parses, the document exists, its `completed` is still
`false`, and the body sets `completed` to `true`. -/
def priorIncompleteSetTrue (s : AppState) (todo_id : String) (u : TodoUpdate) : Bool :=
  match parseObjectId todo_id with
  | none => false
  | some oid =>
    match findOne s.coll oid with
    | none => false
    | some d => (u.completed == some true) && (d.completed == false)

/-! ## Helper lemmas -/

lemma uatc_coll (fs : DbFailures) (s : AppState) :
    (update_active_todos_count fs s).coll = s.coll := by
  unfold update_active_todos_count
  split <;> rfl

lemma uatc_queriedIds (fs : DbFailures) (s : AppState) :
    (update_active_todos_count fs s).queriedIds = s.queriedIds := by
  unfold update_active_todos_count
  split <;> rfl

lemma uatc_countQueries (fs : DbFailures) (s : AppState) :
    (update_active_todos_count fs s).countQueries = s.countQueries + 1 := by
  unfold update_active_todos_count
  split <;> rfl

lemma uatc_metrics_ok (fs : DbFailures) (s : AppState) (h : fs.countFails = false) :
    (update_active_todos_count fs s).metrics =
      { s.metrics with activeTodos := countIncomplete s.coll } := by
  unfold update_active_todos_count
  rw [h]
  simp

lemma uatc_metrics_err (fs : DbFailures) (s : AppState) (h : fs.countFails = true) :
    (update_active_todos_count fs s).metrics =
      { s.metrics with dbErrorsCount := s.metrics.dbErrorsCount + 1 } := by
  unfold update_active_todos_count
  rw [h]
  simp

lemma deleteOne_zero (oid : String) :
    ∀ l : List Doc, (deleteOne l oid).2 = 0 → (deleteOne l oid).1 = l := by
  intro l
  induction l with
  | nil => intro _; rfl
  | cons d rest ih =>
    simp only [deleteOne]
    split
    · intro h; exact absurd h (by simp)
    · intro h
      simp only at h
      simp only [List.cons.injEq, true_and]
      exact ih h

lemma applySet_id (u : TodoUpdate) (d : Doc) : (applySet u d)._id = d._id := rfl

lemma findOne_updateOne (oid : String) (u : TodoUpdate) :
    ∀ l : List Doc, findOne (updateOne l oid u) oid = Option.map (applySet u) (findOne l oid) := by
  intro l
  induction l with
  | nil => rfl
  | cons d rest ih =>
    simp only [updateOne, findOne]
    by_cases h : d._id == oid
    · simp [h, findOne, applySet_id]
    · simp only [h, if_false, Bool.false_eq_true, findOne]
      rw [ih]

lemma findOne_append_fresh (oid : String) (d : Doc) (hd : d._id = oid) :
    ∀ l : List Doc, hasId l oid = false → findOne (l ++ [d]) oid = some d := by
  intro l
  induction l with
  | nil => intro _; simp [findOne, hd]
  | cons e rest ih =>
    simp only [hasId, List.any_cons, Bool.or_eq_false_iff, List.cons_append, findOne]
    intro h
    rw [if_neg (by simp_all)]
    exact ih (by simp [hasId, h.2])

lemma runRequests_induct {P : AppState → Prop} (fs : DbFailures)
    (hstep : ∀ s r, P s → P ((stepRequest fs s r).1)) :
    ∀ (reqs : List Request) (s : AppState), P s → P (runRequests fs s reqs) := by
  intro reqs
  induction reqs with
  | nil => intro s h; exact h
  | cons r rs ih =>
    intro s h
    simp only [runRequests]
    exact ih _ (hstep s r h)

lemma create_todo_obs (fs : DbFailures) (newId : String) (s : AppState) (b : TodoCreate) :
    ((create_todo fs newId s b).1).metrics.httpObservations = s.metrics.httpObservations := by
  simp only [create_todo, update_active_todos_count]
  repeat' split
  all_goals rfl

lemma update_todo_obs (fs : DbFailures) (s : AppState) (todo_id : String) (u : TodoUpdate) :
    ((update_todo fs s todo_id u).1).metrics.httpObservations = s.metrics.httpObservations := by
  simp only [update_todo, update_active_todos_count]
  repeat' split
  all_goals rfl

lemma delete_todo_obs (fs : DbFailures) (s : AppState) (todo_id : String) :
    ((delete_todo fs s todo_id).1).metrics.httpObservations = s.metrics.httpObservations := by
  simp only [delete_todo, update_active_todos_count]
  repeat' split
  all_goals rfl

lemma stepRequest_obs (fs : DbFailures) (s : AppState) (r : Request) :
    ((stepRequest fs s r).1).metrics.httpObservations = s.metrics.httpObservations := by
  cases r with
  | getHealth => rfl
  | getLive => rfl
  | getMetrics => rfl
  | getTodos =>
    simp only [stepRequest, get_todos]
    split <;> rfl
  | postTodos newId b => exact create_todo_obs fs newId s b
  | putTodo todo_id b => exact update_todo_obs fs s todo_id b
  | delTodo todo_id => exact delete_todo_obs fs s todo_id

/-- The gauge invariant: the `active_todos` gauge equals the number of
documents whose `completed` field is `false`. -/
def gaugeInv (s : AppState) : Prop :=
  s.metrics.activeTodos = countIncomplete s.coll

lemma create_todo_gauge (newId : String) (s : AppState) (b : TodoCreate)
    (h : gaugeInv s) : gaugeInv ((create_todo noFailures newId s b).1) := by
  unfold gaugeInv at *
  simp only [create_todo, noFailures, update_active_todos_count]
  repeat' split
  all_goals first | rfl | exact h | simp_all

lemma update_todo_gauge (s : AppState) (todo_id : String) (u : TodoUpdate)
    (h : gaugeInv s) : gaugeInv ((update_todo noFailures s todo_id u).1) := by
  unfold gaugeInv at *
  simp only [update_todo, noFailures, update_active_todos_count]
  repeat' split
  all_goals first | rfl | exact h

lemma delete_todo_gauge (s : AppState) (todo_id : String)
    (h : gaugeInv s) : gaugeInv ((delete_todo noFailures s todo_id).1) := by
  unfold gaugeInv at *
  simp only [delete_todo, noFailures, update_active_todos_count]
  repeat' split
  all_goals first
    | rfl
    | exact h
    | (rename_i hz; rw [show (deleteOne s.coll _).1 = s.coll from deleteOne_zero _ _ (by simpa using hz)]; exact h)

lemma stepRequest_gauge (s : AppState) (r : Request)
    (h : gaugeInv s) : gaugeInv ((stepRequest noFailures s r).1) := by
  cases r with
  | getHealth => exact h
  | getLive => exact h
  | getMetrics => exact h
  | getTodos =>
    simp only [stepRequest, get_todos, noFailures]
    exact h
  | postTodos newId b => exact create_todo_gauge newId s b h
  | putTodo todo_id b => exact update_todo_gauge s todo_id b h
  | delTodo todo_id => exact delete_todo_gauge s todo_id h

lemma initialState_gauge : gaugeInv initialState := by
  unfold gaugeInv initialState
  rfl

@[simp] lemma statusCode_todoJson (c : Nat) (t : SerializedTodo) :
    (HandlerResponse.todoJson c t).statusCode = c := rfl

@[simp] lemma statusCode_todoListJson (c : Nat) (ts : List SerializedTodo) :
    (HandlerResponse.todoListJson c ts).statusCode = c := rfl

@[simp] lemma statusCode_messageJson (c : Nat) (msg : String) :
    (HandlerResponse.messageJson c msg).statusCode = c := rfl

@[simp] lemma statusCode_errorJson (c : Nat) (d : String) :
    (HandlerResponse.errorJson c d).statusCode = c := rfl

@[simp] lemma statusCode_metricsText (c : Nat) (ls : List ExpoLine) :
    (HandlerResponse.metricsText c ls).statusCode = c := rfl

lemma uatc_todosCompleted (fs : DbFailures) (s : AppState) :
    (update_active_todos_count fs s).metrics.todosCompleted = s.metrics.todosCompleted := by
  unfold update_active_todos_count
  split <;> rfl

lemma uatc_todosCreated (fs : DbFailures) (s : AppState) :
    (update_active_todos_count fs s).metrics.todosCreated = s.metrics.todosCreated := by
  unfold update_active_todos_count
  split <;> rfl

lemma uatc_todosDeleted (fs : DbFailures) (s : AppState) :
    (update_active_todos_count fs s).metrics.todosDeleted = s.metrics.todosDeleted := by
  unfold update_active_todos_count
  split <;> rfl

/-- The `todos_completed` delta of one PUT: whenever `find_one` itself
does not fail, the counter grows by exactly one when the prior
document exists with `completed = false` and the body sets `completed`
to `true`, and is unchanged otherwise — independently of whether the
later `update_one` succeeds, because the increment precedes it. -/
lemma update_todo_delta (fs : DbFailures) (s : AppState) (todo_id : String) (u : TodoUpdate)
    (hff : fs.findFails = false) :
    ((update_todo fs s todo_id u).1).metrics.todosCompleted =
      s.metrics.todosCompleted +
        (if priorIncompleteSetTrue s todo_id u = true then 1 else 0) := by
  unfold update_todo priorIncompleteSetTrue
  simp only [hff, Bool.false_eq_true]
  repeat' split
  all_goals simp_all [uatc_todosCompleted]

/-- A body that sets `completed` can never trigger the counter again
on the document it has just updated: if it sets `completed := true`,
the updated document's `completed` is `true`. -/
lemma applySet_no_reinc (u : TodoUpdate) (d : Doc) :
    (u.completed == some true && (applySet u d).completed == false) = false := by
  cases hq : u.completed with
  | none => simp
  | some b => cases b <;> simp [applySet, hq]

/-- After a PUT that returned 200, the completion-counter trigger for
the same id and same body is off: either the body never set
`completed := true`, or the stored document now has
`completed = true`. -/
lemma coll_ite (P : Prop) [Decidable P] (a b : AppState) :
    (if P then a else b).coll = if P then a.coll else b.coll := by
  split <;> rfl

lemma metrics_ite (P : Prop) [Decidable P] (a b : AppState) :
    (if P then a else b).metrics = if P then a.metrics else b.metrics := by
  split <;> rfl

/-- After a PUT that returned 200, the completion-counter trigger for
the same id and same body is off: either the body never set
`completed := true`, or the stored document now has
`completed = true`. -/
lemma after_put_prior_false (s : AppState) (todo_id : String) (u : TodoUpdate)
    (h200 : (update_todo noFailures s todo_id u).2.statusCode = 200) :
    priorIncompleteSetTrue ((update_todo noFailures s todo_id u).1) todo_id u = false := by
  cases hp : parseObjectId todo_id with
  | none =>
    unfold update_todo at h200
    rw [hp] at h200
    simp at h200
  | some oid =>
    cases hfind : findOne s.coll oid with
    | none =>
      unfold update_todo at h200
      rw [hp] at h200
      simp [noFailures, hfind] at h200
    | some d =>
      unfold update_todo at h200 ⊢
      unfold priorIncompleteSetTrue
      rw [hp] at h200 ⊢
      simp only [noFailures] at h200 ⊢
      by_cases he : (u.title == none && u.description == none && u.completed == none) = true
      · have he1 := (Bool.and_eq_true _ _).mp he
        have he2 := (Bool.and_eq_true _ _).mp he1.1
        have ht : u.title = none := eq_of_beq he2.1
        have hdsc : u.description = none := eq_of_beq he2.2
        have hcn : u.completed = none := eq_of_beq he1.2
        simp [hfind, ht, hdsc, hcn]
      · simp [he, hfind, coll_ite, uatc_coll, findOne_updateOne, applySet_no_reinc]
        intro hq
        simp [applySet, hq]

/-! ## Concrete fixtures -/

/-- A valid 24-hex-character ObjectId string. -/
def sampleId : String := "0123456789abcdef01234567"

/-- A well-formed ObjectId string matching no document below. -/
def absentId : String := "123456789012345678901234"

def sampleCreate : TodoCreate :=
  { title := "Todo 1", description := none, completed := false }

/-- State after startup plus one successful `POST /todos`. -/
def oneTodoState : AppState :=
  (create_todo noFailures sampleId initialState sampleCreate).1

/-! ## Claims -/

/-- C2: the claim says PUT/DELETE with a well-formed but absent id
respond 404, and that the second of two DELETEs of the same id yields
404.  The code instead responds 400: the `HTTPException(404)` raised
inside the `try` block is caught by the handler's own trailing
`except Exception` clause and re-raised as a 400 "Invalid todo ID".
This theorem evaluates the handlers at the failing inputs: a PUT and a
DELETE of an absent well-formed id both yield 400, and deleting the
same item twice yields 200 then 400. -/
theorem c2_absent_id_yields_400_not_404 :
    (update_todo noFailures initialState absentId
      { title := some "Updated", description := none, completed := none }).2
      = .errorJson 400 "Invalid todo ID" ∧
    (delete_todo noFailures initialState absentId).2 = .errorJson 400 "Invalid todo ID" ∧
    (delete_todo noFailures oneTodoState sampleId).2 = .messageJson 200 "Todo deleted" ∧
    (delete_todo noFailures (delete_todo noFailures oneTodoState sampleId).1 sampleId).2
      = .errorJson 400 "Invalid todo ID" := by
  refine ⟨rfl, rfl, ?_, ?_⟩ <;> rfl

/-- C3: the claim says POST assigns a `createdAt` creation timestamp
and returns it serialized as text.  The code never assigns one:
`TodoCreate` has no `createdAt` field, `create_todo` inserts only
`title`/`description`/`completed`, so the persisted document lacks the
key and `serialize_todo` always falls back to the empty string.  This
theorem evaluates a successful POST: the stored document's `createdAt`
is absent (`none`) and the 201 response carries `createdAt = ""`. -/
theorem c3_createdAt_never_assigned :
    (create_todo noFailures sampleId initialState sampleCreate).2
      = .todoJson 201 { id := sampleId, title := "Todo 1", description := none,
                        completed := false, createdAt := "" } ∧
    (create_todo noFailures sampleId initialState sampleCreate).1.coll
      = [{ _id := sampleId, title := "Todo 1", description := none,
           completed := false, createdAt := none }] :=
  ⟨rfl, rfl⟩

/-- C8: a path id that is not a valid ObjectId hex string makes both
PUT and DELETE respond 400, and the handler state — collection,
metrics, and the ghost log of ids handed to storage queries — is
exactly the input state, so no storage query with that id is issued. -/
theorem c8_malformed_id_rejected_before_storage
    (fs : DbFailures) (s : AppState) (todo_id : String) (u : TodoUpdate)
    (h : parseObjectId todo_id = none) :
    (update_todo fs s todo_id u).2 = .errorJson 400 "Invalid todo ID" ∧
    (update_todo fs s todo_id u).1 = s ∧
    (delete_todo fs s todo_id).2 = .errorJson 400 "Invalid todo ID" ∧
    (delete_todo fs s todo_id).1 = s := by
  unfold update_todo delete_todo
  rw [h]
  exact ⟨rfl, rfl, rfl, rfl⟩

theorem c8_witness :
    parseObjectId "not-an-id" = none ∧
    (update_todo noFailures initialState "not-an-id"
      { title := some "x", description := none, completed := none }).2
      = .errorJson 400 "Invalid todo ID" ∧
    (update_todo noFailures initialState "not-an-id"
      { title := some "x", description := none, completed := none }).1 = initialState ∧
    (delete_todo noFailures initialState "not-an-id").2 = .errorJson 400 "Invalid todo ID" ∧
    (delete_todo noFailures initialState "not-an-id").1 = initialState := by
  refine ⟨by decide, ?_⟩
  have h := c8_malformed_id_rejected_before_storage noFailures initialState "not-an-id"
    { title := some "x", description := none, completed := none } (by decide)
  exact ⟨h.1, h.2.1, h.2.2.1, h.2.2.2⟩

/-- C9: every POST that returns 201 creates an item with
`completed = false` — the handler overwrites whatever the body said
(`todo_dict["completed"] = False`) — and returns exactly the stored
document serialized, appended to the collection. -/
theorem c9_create_forces_completed_false
    (fs : DbFailures) (newId : String) (s : AppState) (b : TodoCreate)
    (h : (create_todo fs newId s b).2.statusCode = 201) :
    (create_todo fs newId s b).2 =
      .todoJson 201 { id := newId, title := b.title, description := b.description,
                      completed := false, createdAt := "" } ∧
    (create_todo fs newId s b).1.coll =
      s.coll ++ [{ _id := newId, title := b.title, description := b.description,
                   completed := false, createdAt := none }] := by
  simp only [create_todo] at h ⊢
  by_cases hc : (fs.insertFails || hasId s.coll newId) = true
  · rw [if_pos hc] at h
    exact absurd h (by simp [HandlerResponse.statusCode])
  · rw [if_neg hc] at h ⊢
    by_cases hf : fs.findFails = true
    · rw [if_pos hf] at h
      exact absurd h (by simp [HandlerResponse.statusCode])
    · rw [if_neg hf] at h ⊢
      have hId : hasId s.coll newId = false := by
        simp only [Bool.or_eq_true, not_or] at hc
        simpa using hc.2
      rw [uatc_coll] at h ⊢
      rw [findOne_append_fresh newId
        { _id := newId, title := b.title, description := b.description,
          completed := false, createdAt := none } rfl s.coll hId] at h ⊢
      exact ⟨rfl, rfl⟩

theorem c9_witness :
    (create_todo noFailures sampleId initialState
      { title := "t", description := none, completed := true }).2.statusCode = 201 ∧
    (create_todo noFailures sampleId initialState
      { title := "t", description := none, completed := true }).2 =
      .todoJson 201 { id := sampleId, title := "t", description := none,
                      completed := false, createdAt := "" } :=
  ⟨rfl, (c9_create_forces_completed_false noFailures sampleId initialState
    { title := "t", description := none, completed := true } rfl).1⟩

/-- C1: starting from the startup state, run any sequence of requests
with every storage operation succeeding; immediately after a further
POST / PUT / DELETE handler completes successfully, the `active_todos`
gauge equals the number of collection items with `completed = false`.
(The gauge invariant in fact holds after every request, which is how
the proof goes: startup initialises it and every handler preserves or
re-establishes it.) -/
theorem c1_gauge_equals_incomplete_count (reqs : List Request) (r : Request)
    (hm : isMutation r = true)
    (hs : isSuccessStatus
      ((stepRequest noFailures (runRequests noFailures initialState reqs) r).2.statusCode)
      = true) :
    ((stepRequest noFailures (runRequests noFailures initialState reqs) r).1).metrics.activeTodos
      = countIncomplete
        ((stepRequest noFailures (runRequests noFailures initialState reqs) r).1).coll := by
  have h1 : gaugeInv (runRequests noFailures initialState reqs) :=
    runRequests_induct noFailures stepRequest_gauge reqs initialState initialState_gauge
  exact stepRequest_gauge _ r h1

theorem c1_witness :
    isMutation (.postTodos sampleId sampleCreate) = true ∧
    isSuccessStatus
      ((stepRequest noFailures (runRequests noFailures initialState [])
        (.postTodos sampleId sampleCreate)).2.statusCode) = true ∧
    ((stepRequest noFailures (runRequests noFailures initialState [])
        (.postTodos sampleId sampleCreate)).1).metrics.activeTodos
      = countIncomplete
        ((stepRequest noFailures (runRequests noFailures initialState [])
          (.postTodos sampleId sampleCreate)).1).coll :=
  ⟨rfl, rfl, c1_gauge_equals_incomplete_count [] (.postTodos sampleId sampleCreate) rfl rfl⟩

/-- C7: the claim says that after at least one prior request,
`/metrics` contains `http_request_duration_seconds` and reflects at
least one recorded observation of it.  The second half fails on the
code: `track_request_time` is defined but applied to no route, so no
handler ever observes the histogram.  This theorem shows (i) after any
request sequence whatsoever the histogram's observation list is still
empty, and (ii) at the concrete failing input (a handled GET /health,
then GET /metrics) the exposition contains the histogram name — its
`# HELP` / `# TYPE` metadata — but not a single sample of it. -/
theorem c7_histogram_never_observed :
    (∀ (fs : DbFailures) (reqs : List Request),
      (runRequests fs initialState reqs).metrics.httpObservations = []) ∧
    ((stepRequest noFailures (runRequests noFailures initialState [.getHealth]) .getMetrics).2
      = .metricsText 200
          (generateLatest (runRequests noFailures initialState [.getHealth]).metrics)) ∧
    ((generateLatest (runRequests noFailures initialState [.getHealth]).metrics).any
      (fun l => l.familyName == "http_request_duration_seconds") = true) ∧
    ((generateLatest (runRequests noFailures initialState [.getHealth]).metrics).any
      (fun l => l.isSample && (l.familyName == "http_request_duration_seconds")) = false) := by
  refine ⟨?_, rfl, by decide, by decide⟩
  intro fs reqs
  exact runRequests_induct (P := fun st => st.metrics.httpObservations = []) fs
    (fun s r h => by
      show (stepRequest fs s r).1.metrics.httpObservations = []
      rw [stepRequest_obs fs s r]
      exact h) reqs initialState rfl

/-- C4: a PUT that returns 200 increments `todos_completed` exactly
when the prior document had `completed = false` and the body sets
`completed` to `true` (the `if priorIncompleteSetTrue … then 1 else 0`
delta), and every other case — item already completed, `completed`
absent / null / false — leaves it unchanged; moreover repeating the
same successful PUT leaves the counter unchanged the second time. -/
theorem c4_completed_counter_semantics
    (fs : DbFailures) (s : AppState) (todo_id : String) (u : TodoUpdate) :
    ((update_todo fs s todo_id u).2.statusCode = 200 →
      ((update_todo fs s todo_id u).1).metrics.todosCompleted =
        s.metrics.todosCompleted +
          (if priorIncompleteSetTrue s todo_id u = true then 1 else 0)) ∧
    ((update_todo noFailures s todo_id u).2.statusCode = 200 →
      ((update_todo noFailures ((update_todo noFailures s todo_id u).1) todo_id u).1).metrics.todosCompleted
        = ((update_todo noFailures s todo_id u).1).metrics.todosCompleted) := by
  constructor
  · intro h200
    by_cases hff : fs.findFails = true
    · exfalso
      unfold update_todo at h200
      cases hq : parseObjectId todo_id with
      | none => rw [hq] at h200; simp at h200
      | some oid => rw [hq] at h200; simp [hff] at h200
    · exact update_todo_delta fs s todo_id u (by simpa using hff)
  · intro h200
    have hd := update_todo_delta noFailures ((update_todo noFailures s todo_id u).1)
      todo_id u rfl
    rw [after_put_prior_false s todo_id u h200] at hd
    simpa using hd

theorem c4_witness :
    (update_todo noFailures oneTodoState sampleId
      (⟨none, none, some true⟩ : TodoUpdate)).2.statusCode = 200 ∧
    ((update_todo noFailures oneTodoState sampleId
      (⟨none, none, some true⟩ : TodoUpdate)).1).metrics.todosCompleted =
      oneTodoState.metrics.todosCompleted +
        (if priorIncompleteSetTrue oneTodoState sampleId
          (⟨none, none, some true⟩ : TodoUpdate) = true then 1 else 0) ∧
    ((update_todo noFailures
      ((update_todo noFailures oneTodoState sampleId
        (⟨none, none, some true⟩ : TodoUpdate)).1) sampleId
      (⟨none, none, some true⟩ : TodoUpdate)).1).metrics.todosCompleted
      = ((update_todo noFailures oneTodoState sampleId
        (⟨none, none, some true⟩ : TodoUpdate)).1).metrics.todosCompleted :=
  ⟨rfl,
   (c4_completed_counter_semantics noFailures oneTodoState sampleId
     (⟨none, none, some true⟩ : TodoUpdate)).1 rfl,
   (c4_completed_counter_semantics noFailures oneTodoState sampleId
     (⟨none, none, some true⟩ : TodoUpdate)).2 rfl⟩

/-- C5: the claim says that when `update_one` fails and the handler
reports a 500 `StorageError`, `todos_completed` is unchanged by that
request.  False: `todos_completed.inc()` runs before
`todos_collection.update_one`, so the counter has already been
incremented when the update fails.  Concrete run: one incomplete item,
PUT `{completed: true}` with the update operation failing — the
response is 500 yet the counter went from 0 to 1. -/
theorem c5_counterexample :
    (update_todo onlyUpdateFails oneTodoState sampleId
      (⟨none, none, some true⟩ : TodoUpdate)).2.statusCode = 500 ∧
    oneTodoState.metrics.todosCompleted = 0 ∧
    ((update_todo onlyUpdateFails oneTodoState sampleId
      (⟨none, none, some true⟩ : TodoUpdate)).1).metrics.todosCompleted = 1 :=
  ⟨rfl, rfl, rfl⟩

/-- C5 (amended): the increment precedes the storage update and does
not depend on its success: with the update operation failing, the
counter still grows by one exactly on a false→true transition request
(and that request reports a 500). -/
theorem c5_amended_increment_precedes_update
    (s : AppState) (todo_id : String) (u : TodoUpdate) :
    ((update_todo onlyUpdateFails s todo_id u).1).metrics.todosCompleted =
      s.metrics.todosCompleted +
        (if priorIncompleteSetTrue s todo_id u = true then 1 else 0) ∧
    (priorIncompleteSetTrue s todo_id u = true →
      (update_todo onlyUpdateFails s todo_id u).2.statusCode = 500) := by
  refine ⟨update_todo_delta onlyUpdateFails s todo_id u rfl, ?_⟩
  intro hpr
  unfold priorIncompleteSetTrue at hpr
  simp only [update_todo]
  cases hp : parseObjectId todo_id with
  | none => rw [hp] at hpr; simp at hpr
  | some oid =>
    rw [hp] at hpr
    dsimp only at hpr
    cases hfind : findOne s.coll oid with
    | none => rw [hfind] at hpr; simp at hpr
    | some d =>
      rw [hfind] at hpr
      have hct : u.completed = some true := eq_of_beq ((Bool.and_eq_true _ _).mp hpr).1
      have hcf : d.completed = false := eq_of_beq ((Bool.and_eq_true _ _).mp hpr).2
      simp [hfind, onlyUpdateFails, hct, hcf]

theorem c5_amended_witness :
    priorIncompleteSetTrue oneTodoState sampleId
      (⟨none, none, some true⟩ : TodoUpdate) = true ∧
    ((update_todo onlyUpdateFails oneTodoState sampleId
      (⟨none, none, some true⟩ : TodoUpdate)).1).metrics.todosCompleted =
      oneTodoState.metrics.todosCompleted +
        (if priorIncompleteSetTrue oneTodoState sampleId
          (⟨none, none, some true⟩ : TodoUpdate) = true then 1 else 0) ∧
    (update_todo onlyUpdateFails oneTodoState sampleId
      (⟨none, none, some true⟩ : TodoUpdate)).2.statusCode = 500 :=
  ⟨rfl,
   (c5_amended_increment_precedes_update oneTodoState sampleId
     (⟨none, none, some true⟩ : TodoUpdate)).1,
   (c5_amended_increment_precedes_update oneTodoState sampleId
     (⟨none, none, some true⟩ : TodoUpdate)).2 rfl⟩

/-- C6: the claim says every successful create/update/delete —
including a PUT whose body supplies no fields — issues a fresh count
query and publishes the result to the gauge.  False for the no-field
PUT: `update_todo` returns the unchanged item early
(`if not update_dict: return serialize_todo(existing)`) without
calling `update_active_todos_count`.  Concrete run: a no-field PUT on
an existing item returns 200 while the storage layer receives no
count query (the ghost `countQueries` counter is unchanged) and no
metric is touched. -/
theorem c6_counterexample :
    (update_todo noFailures oneTodoState sampleId
      (⟨none, none, none⟩ : TodoUpdate)).2.statusCode = 200 ∧
    ((update_todo noFailures oneTodoState sampleId
      (⟨none, none, none⟩ : TodoUpdate)).1).countQueries = oneTodoState.countQueries ∧
    ((update_todo noFailures oneTodoState sampleId
      (⟨none, none, none⟩ : TodoUpdate)).1).metrics = oneTodoState.metrics :=
  ⟨rfl, rfl, rfl⟩

/-- C6 (amended): every successful create or delete, and every
successful PUT that supplies at least one field, issues exactly one
fresh count query and publishes the count to the gauge before
returning; a successful PUT whose body supplies no fields returns the
unchanged item without issuing a count query, leaving collection and
metrics untouched. -/
theorem c6_amended_count_query_per_mutation (s : AppState) (r : Request)
    (hm : isMutation r = true)
    (hs : isSuccessStatus ((stepRequest noFailures s r).2.statusCode) = true) :
    (isNoopPut r = false →
      ((stepRequest noFailures s r).1).countQueries = s.countQueries + 1 ∧
      ((stepRequest noFailures s r).1).metrics.activeTodos
        = countIncomplete ((stepRequest noFailures s r).1).coll) ∧
    (isNoopPut r = true →
      ((stepRequest noFailures s r).1).countQueries = s.countQueries ∧
      ((stepRequest noFailures s r).1).metrics = s.metrics ∧
      ((stepRequest noFailures s r).1).coll = s.coll) := by
  cases r with
  | getHealth => exact absurd hm (by simp [isMutation])
  | getLive => exact absurd hm (by simp [isMutation])
  | getMetrics => exact absurd hm (by simp [isMutation])
  | getTodos => exact absurd hm (by simp [isMutation])
  | postTodos newId b =>
    constructor
    · intro _
      simp only [stepRequest] at hs ⊢
      unfold create_todo at hs ⊢
      repeat' split at hs
      all_goals (try (repeat' split))
      all_goals
        simp_all [noFailures, isSuccessStatus, uatc_countQueries, uatc_coll, uatc_metrics_ok, apply_ite AppState.countQueries, apply_ite AppState.coll, apply_ite AppState.metrics, apply_ite Metrics.activeTodos, apply_ite Metrics.dbErrorsCount, apply_ite Metrics.todosCompleted, apply_ite Metrics.todosCreated, apply_ite Metrics.todosDeleted]
      all_goals (try (repeat' split at hs))
      all_goals
        simp_all [noFailures, isSuccessStatus, uatc_countQueries, uatc_coll, uatc_metrics_ok, apply_ite AppState.countQueries, apply_ite AppState.coll, apply_ite AppState.metrics, apply_ite Metrics.activeTodos, apply_ite Metrics.dbErrorsCount, apply_ite Metrics.todosCompleted, apply_ite Metrics.todosCreated, apply_ite Metrics.todosDeleted]
    · intro hnp
      exact absurd hnp (by simp [isNoopPut])
  | putTodo todo_id u =>
    constructor
    · intro hnp
      simp only [isNoopPut] at hnp
      simp only [stepRequest] at hs ⊢
      unfold update_todo at hs ⊢
      repeat' split at hs
      all_goals (try (repeat' split))
      all_goals
        simp_all [noFailures, isSuccessStatus, uatc_countQueries, uatc_coll, uatc_metrics_ok, apply_ite AppState.countQueries, apply_ite AppState.coll, apply_ite AppState.metrics, apply_ite Metrics.activeTodos, apply_ite Metrics.dbErrorsCount, apply_ite Metrics.todosCompleted, apply_ite Metrics.todosCreated, apply_ite Metrics.todosDeleted]
      all_goals (try (repeat' split at hs))
      all_goals
        simp_all [noFailures, isSuccessStatus, uatc_countQueries, uatc_coll, uatc_metrics_ok, apply_ite AppState.countQueries, apply_ite AppState.coll, apply_ite AppState.metrics, apply_ite Metrics.activeTodos, apply_ite Metrics.dbErrorsCount, apply_ite Metrics.todosCompleted, apply_ite Metrics.todosCreated, apply_ite Metrics.todosDeleted]
    · intro hnp
      simp only [isNoopPut] at hnp
      simp only [stepRequest] at hs ⊢
      unfold update_todo at hs ⊢
      repeat' split at hs
      all_goals (try (repeat' split))
      all_goals
        simp_all [noFailures, isSuccessStatus, uatc_countQueries, uatc_coll, uatc_metrics_ok, apply_ite AppState.countQueries, apply_ite AppState.coll, apply_ite AppState.metrics, apply_ite Metrics.activeTodos, apply_ite Metrics.dbErrorsCount, apply_ite Metrics.todosCompleted, apply_ite Metrics.todosCreated, apply_ite Metrics.todosDeleted]
      all_goals (try (repeat' split at hs))
      all_goals
        simp_all [noFailures, isSuccessStatus, uatc_countQueries, uatc_coll, uatc_metrics_ok, apply_ite AppState.countQueries, apply_ite AppState.coll, apply_ite AppState.metrics, apply_ite Metrics.activeTodos, apply_ite Metrics.dbErrorsCount, apply_ite Metrics.todosCompleted, apply_ite Metrics.todosCreated, apply_ite Metrics.todosDeleted]
  | delTodo todo_id =>
    constructor
    · intro _
      simp only [stepRequest] at hs ⊢
      unfold delete_todo at hs ⊢
      repeat' split at hs
      all_goals (try (repeat' split))
      all_goals
        simp_all [noFailures, isSuccessStatus, uatc_countQueries, uatc_coll, uatc_metrics_ok, apply_ite AppState.countQueries, apply_ite AppState.coll, apply_ite AppState.metrics, apply_ite Metrics.activeTodos, apply_ite Metrics.dbErrorsCount, apply_ite Metrics.todosCompleted, apply_ite Metrics.todosCreated, apply_ite Metrics.todosDeleted]
      all_goals (try (repeat' split at hs))
      all_goals
        simp_all [noFailures, isSuccessStatus, uatc_countQueries, uatc_coll, uatc_metrics_ok, apply_ite AppState.countQueries, apply_ite AppState.coll, apply_ite AppState.metrics, apply_ite Metrics.activeTodos, apply_ite Metrics.dbErrorsCount, apply_ite Metrics.todosCompleted, apply_ite Metrics.todosCreated, apply_ite Metrics.todosDeleted]
    · intro hnp
      exact absurd hnp (by simp [isNoopPut])

theorem c6_amended_witness :
    isMutation (.postTodos sampleId sampleCreate) = true ∧
    isSuccessStatus
      ((stepRequest noFailures initialState (.postTodos sampleId sampleCreate)).2.statusCode)
      = true ∧
    isNoopPut (.postTodos sampleId sampleCreate) = false ∧
    ((stepRequest noFailures initialState (.postTodos sampleId sampleCreate)).1).countQueries
      = initialState.countQueries + 1 ∧
    ((stepRequest noFailures initialState (.postTodos sampleId sampleCreate)).1).metrics.activeTodos
      = countIncomplete
        ((stepRequest noFailures initialState (.postTodos sampleId sampleCreate)).1).coll ∧
    isMutation (.putTodo sampleId (⟨none, none, none⟩ : TodoUpdate)) = true ∧
    isSuccessStatus
      ((stepRequest noFailures oneTodoState
        (.putTodo sampleId (⟨none, none, none⟩ : TodoUpdate))).2.statusCode) = true ∧
    isNoopPut (.putTodo sampleId (⟨none, none, none⟩ : TodoUpdate)) = true ∧
    ((stepRequest noFailures oneTodoState
      (.putTodo sampleId (⟨none, none, none⟩ : TodoUpdate))).1).countQueries
      = oneTodoState.countQueries := by
  have h1 := (c6_amended_count_query_per_mutation initialState
    (.postTodos sampleId sampleCreate) rfl rfl).1 rfl
  have h2 := (c6_amended_count_query_per_mutation oneTodoState
    (.putTodo sampleId (⟨none, none, none⟩ : TodoUpdate)) rfl rfl).2 rfl
  exact ⟨rfl, rfl, rfl, h1.1, h1.2, rfl, rfl, rfl, h2.1⟩

/-- C10: with the mutation's own document operation succeeding and
only the active-count query failing, every mutation handler returns
the same status it would have returned with a fully healthy storage
layer (201 for create, 200 for update and delete); and whenever it
succeeds having issued the count query (every success except the
no-field PUT, which issues none), `db_errors{operation="count"}` is
incremented by one and the `active_todos` gauge keeps its previous
value. -/
theorem c10_count_failure_does_not_change_response (s : AppState) (r : Request)
    (hm : isMutation r = true) :
    ((stepRequest onlyCountFails s r).2.statusCode
      = (stepRequest noFailures s r).2.statusCode) ∧
    (isSuccessStatus ((stepRequest onlyCountFails s r).2.statusCode) = true →
      isNoopPut r = false →
      ((stepRequest onlyCountFails s r).1).metrics.dbErrorsCount
        = s.metrics.dbErrorsCount + 1 ∧
      ((stepRequest onlyCountFails s r).1).metrics.activeTodos
        = s.metrics.activeTodos) := by
  cases r with
  | getHealth => exact absurd hm (by simp [isMutation])
  | getLive => exact absurd hm (by simp [isMutation])
  | getMetrics => exact absurd hm (by simp [isMutation])
  | getTodos => exact absurd hm (by simp [isMutation])
  | postTodos newId b =>
    constructor
    · simp only [stepRequest]
      unfold create_todo
      repeat' split
      all_goals simp_all [noFailures, onlyCountFails, uatc_coll]
      all_goals (try (repeat' split))
      all_goals simp_all [noFailures, onlyCountFails, uatc_coll]
    · intro hsuc _
      simp only [stepRequest] at hsuc ⊢
      unfold create_todo at hsuc ⊢
      repeat' split at hsuc
      all_goals (try (repeat' split))
      all_goals
        simp_all [noFailures, onlyCountFails, isSuccessStatus, uatc_coll, uatc_metrics_err, apply_ite AppState.countQueries, apply_ite AppState.coll, apply_ite AppState.metrics, apply_ite Metrics.activeTodos, apply_ite Metrics.dbErrorsCount, apply_ite Metrics.todosCompleted, apply_ite Metrics.todosCreated, apply_ite Metrics.todosDeleted]
      all_goals (try (repeat' split at hsuc))
      all_goals
        simp_all [noFailures, onlyCountFails, isSuccessStatus, uatc_coll, uatc_metrics_err, apply_ite AppState.countQueries, apply_ite AppState.coll, apply_ite AppState.metrics, apply_ite Metrics.activeTodos, apply_ite Metrics.dbErrorsCount, apply_ite Metrics.todosCompleted, apply_ite Metrics.todosCreated, apply_ite Metrics.todosDeleted]
  | putTodo todo_id u =>
    constructor
    · simp only [stepRequest]
      unfold update_todo
      repeat' split
      all_goals simp_all [noFailures, onlyCountFails, uatc_coll]
      all_goals (try (repeat' split))
      all_goals simp_all [noFailures, onlyCountFails, uatc_coll]
    · intro hsuc hnp
      simp only [isNoopPut] at hnp
      simp only [stepRequest] at hsuc ⊢
      unfold update_todo at hsuc ⊢
      repeat' split at hsuc
      all_goals (try (repeat' split))
      all_goals
        simp_all [noFailures, onlyCountFails, isSuccessStatus, uatc_coll, uatc_metrics_err, apply_ite AppState.countQueries, apply_ite AppState.coll, apply_ite AppState.metrics, apply_ite Metrics.activeTodos, apply_ite Metrics.dbErrorsCount, apply_ite Metrics.todosCompleted, apply_ite Metrics.todosCreated, apply_ite Metrics.todosDeleted]
      all_goals (try (repeat' split at hsuc))
      all_goals
        simp_all [noFailures, onlyCountFails, isSuccessStatus, uatc_coll, uatc_metrics_err, apply_ite AppState.countQueries, apply_ite AppState.coll, apply_ite AppState.metrics, apply_ite Metrics.activeTodos, apply_ite Metrics.dbErrorsCount, apply_ite Metrics.todosCompleted, apply_ite Metrics.todosCreated, apply_ite Metrics.todosDeleted]
  | delTodo todo_id =>
    constructor
    · simp only [stepRequest]
      unfold delete_todo
      repeat' split
      all_goals simp_all [noFailures, onlyCountFails, uatc_coll]
      all_goals (try (repeat' split))
      all_goals simp_all [noFailures, onlyCountFails, uatc_coll]
    · intro hsuc _
      simp only [stepRequest] at hsuc ⊢
      unfold delete_todo at hsuc ⊢
      repeat' split at hsuc
      all_goals (try (repeat' split))
      all_goals
        simp_all [noFailures, onlyCountFails, isSuccessStatus, uatc_coll, uatc_metrics_err, apply_ite AppState.countQueries, apply_ite AppState.coll, apply_ite AppState.metrics, apply_ite Metrics.activeTodos, apply_ite Metrics.dbErrorsCount, apply_ite Metrics.todosCompleted, apply_ite Metrics.todosCreated, apply_ite Metrics.todosDeleted]
      all_goals (try (repeat' split at hsuc))
      all_goals
        simp_all [noFailures, onlyCountFails, isSuccessStatus, uatc_coll, uatc_metrics_err, apply_ite AppState.countQueries, apply_ite AppState.coll, apply_ite AppState.metrics, apply_ite Metrics.activeTodos, apply_ite Metrics.dbErrorsCount, apply_ite Metrics.todosCompleted, apply_ite Metrics.todosCreated, apply_ite Metrics.todosDeleted]

theorem c10_witness :
    isMutation (.postTodos sampleId sampleCreate) = true ∧
    isSuccessStatus
      ((stepRequest onlyCountFails initialState
        (.postTodos sampleId sampleCreate)).2.statusCode) = true ∧
    isNoopPut (.postTodos sampleId sampleCreate) = false ∧
    ((stepRequest onlyCountFails initialState (.postTodos sampleId sampleCreate)).2.statusCode
      = (stepRequest noFailures initialState (.postTodos sampleId sampleCreate)).2.statusCode) ∧
    ((stepRequest onlyCountFails initialState
      (.postTodos sampleId sampleCreate)).1).metrics.dbErrorsCount
      = initialState.metrics.dbErrorsCount + 1 ∧
    ((stepRequest onlyCountFails initialState
      (.postTodos sampleId sampleCreate)).1).metrics.activeTodos
      = initialState.metrics.activeTodos := by
  have h := c10_count_failure_does_not_change_response initialState
    (.postTodos sampleId sampleCreate) rfl
  have h2 := h.2 rfl rfl
  exact ⟨rfl, rfl, rfl, h.1, h2.1, h2.2⟩

end TodoApp
